import Mathlib

/-!
Shallow embedding of the pattern-analysis and forecasting core of the
senti-sync repository (src/prediction/PatternPredictor.ts), together with the
storage interaction relevant to its side effects
(src/storage/LocalStateManager.ts).

Modelling conventions:
* JavaScript numbers are modelled as exact rationals (ℚ); all arithmetic in
  the source is on small integers, averages and fixed decimal constants.
* `Math.round` is modelled as `jsRound q = ⌊q + 1/2⌋` (round half toward +∞),
  which is the behaviour of JavaScript `Math.round` on all reals.
* `new Date(ts).getHours()` / `.getDay()` are modelled with the UTC calendar
  (hour = ts/3600000 mod 24; day = (ts/86400000 + 4) mod 7, epoch day being a
  Thursday).  The spec notes the source derives these from the local calendar
  and flags the local-vs-UTC choice as an open design question; none of the
  verified properties depend on which calendar is fixed.
* `Math.sin` and `Math.random()` are not embeddable as computable rationals;
  `generatePredictions` is therefore parametrised by a function `sin2pi`
  standing for `x ↦ sin (2·π·x)` and by a noise stream `noise : ℕ → ℚ × ℚ`
  giving the two `Math.random()` draws of step `i`.  Every verified property
  holds for all values of these parameters.
-/

/-- A mood/energy journal entry (`MoodEnergyEntry` in the source data model):
an id, an epoch-milliseconds timestamp, and mood/energy readings. -/
structure MoodEnergyEntry where
  id : String
  timestamp : ℕ
  mood : ℚ
  energy : ℚ
deriving DecidableEq, Repr

/-- Hour-of-day pattern summary (`DailyPattern` in the source). -/
structure DailyPattern where
  hour : ℕ
  averageMood : ℤ
  averageEnergy : ℤ
  entryCount : ℕ
deriving DecidableEq, Repr

/-- Day-of-week pattern summary (`WeeklyPattern` in the source). -/
structure WeeklyPattern where
  dayOfWeek : ℕ
  averageMood : ℤ
  averageEnergy : ℤ
  entryCount : ℕ
deriving DecidableEq, Repr

/-- A forecast point (`PredictionData` in the source). -/
structure PredictionData where
  timestamp : ℕ
  predictedMood : ℤ
  predictedEnergy : ℤ
  confidence : ℚ
deriving DecidableEq, Repr

/-- JavaScript `Math.round`: round half toward positive infinity. -/
def jsRound (q : ℚ) : ℤ := ⌊q + 1/2⌋

/-- JavaScript truthiness fallback `x || d` on an optional number
(`undefined` and `0` both fall through to the default). -/
def jsOrI (x : Option ℤ) (d : ℤ) : ℤ :=
  match x with
  | none => d
  | some v => if v = 0 then d else v

/-- `new Date(ts).getHours()`, UTC calendar (see module comment). -/
def getHours (ts : ℕ) : ℕ := ts / 3600000 % 24

/-- `new Date(ts).getDay()`, UTC calendar; day 0 is Sunday and the epoch day
is a Thursday. -/
def getDay (ts : ℕ) : ℕ := (ts / 86400000 + 4) % 7

/-- JavaScript `list.slice(-n)` for `n > 0`: the last `n` elements (the whole
list when it is shorter than `n`). -/
def takeLast (n : ℕ) (l : List α) : List α := l.drop (l.length - n)

/-- `DEFAULT_DAILY_PATTERNS`: the hand-authored baseline circadian table
(24 entries, source lines 5–45, listed there starting at hour 6). -/
def DEFAULT_DAILY_PATTERNS : List DailyPattern :=
  [⟨6, 45, 30, 0⟩, ⟨7, 50, 35, 0⟩, ⟨8, 55, 45, 0⟩,
   ⟨9, 60, 60, 0⟩, ⟨10, 65, 70, 0⟩, ⟨11, 68, 75, 0⟩,
   ⟨12, 70, 75, 0⟩, ⟨13, 68, 70, 0⟩,
   ⟨14, 60, 55, 0⟩, ⟨15, 58, 50, 0⟩,
   ⟨16, 62, 60, 0⟩, ⟨17, 65, 65, 0⟩, ⟨18, 63, 60, 0⟩,
   ⟨19, 60, 55, 0⟩, ⟨20, 58, 50, 0⟩, ⟨21, 55, 45, 0⟩,
   ⟨22, 50, 35, 0⟩, ⟨23, 45, 30, 0⟩, ⟨0, 40, 25, 0⟩,
   ⟨1, 35, 20, 0⟩, ⟨2, 30, 15, 0⟩, ⟨3, 28, 12, 0⟩, ⟨4, 30, 15, 0⟩,
   ⟨5, 35, 20, 0⟩]

/-- `DEFAULT_WEEKLY_PATTERNS`: the hand-authored baseline weekly table
(7 entries, source lines 47–64). -/
def DEFAULT_WEEKLY_PATTERNS : List WeeklyPattern :=
  [⟨0, 55, 60, 0⟩, ⟨1, 50, 65, 0⟩, ⟨2, 65, 70, 0⟩, ⟨3, 68, 72, 0⟩,
   ⟨4, 70, 70, 0⟩, ⟨5, 72, 68, 0⟩, ⟨6, 75, 65, 0⟩]

/-- The hour bucket of the grouping loop (source lines 72–79): the entries
whose timestamp falls in `hour`, in input order. -/
def hourBucket (entries : List MoodEnergyEntry) (hour : ℕ) : List MoodEnergyEntry :=
  entries.filter fun e => getHours e.timestamp == hour

/-- The day-of-week bucket of the grouping loop (source lines 125–132). -/
def dayBucket (entries : List MoodEnergyEntry) (day : ℕ) : List MoodEnergyEntry :=
  entries.filter fun e => getDay e.timestamp == day

/-- The baseline-table mood for `hour` (the `DEFAULT_DAILY_PATTERNS` lookup of
source line 84, with the neutral 50 of lines 96/111 when the table misses the
hour). -/
def baselineDailyMood (hour : ℕ) : ℤ :=
  ((DEFAULT_DAILY_PATTERNS.find? fun p => p.hour == hour).getD
    { hour := hour, averageMood := 50, averageEnergy := 50, entryCount := 0 }).averageMood

/-- The baseline-table energy for `hour` (source line 84, neutral 50). -/
def baselineDailyEnergy (hour : ℕ) : ℤ :=
  ((DEFAULT_DAILY_PATTERNS.find? fun p => p.hour == hour).getD
    { hour := hour, averageMood := 50, averageEnergy := 50, entryCount := 0 }).averageEnergy

/-- The baseline-table mood for day-of-week `day` (source line 137, neutral
60 of lines 149/164). -/
def baselineWeeklyMood (day : ℕ) : ℤ :=
  ((DEFAULT_WEEKLY_PATTERNS.find? fun p => p.dayOfWeek == day).getD
    { dayOfWeek := day, averageMood := 60, averageEnergy := 60, entryCount := 0 }).averageMood

/-- The baseline-table energy for day-of-week `day` (source line 137, neutral
60). -/
def baselineWeeklyEnergy (day : ℕ) : ℤ :=
  ((DEFAULT_WEEKLY_PATTERNS.find? fun p => p.dayOfWeek == day).getD
    { dayOfWeek := day, averageMood := 60, averageEnergy := 60, entryCount := 0 }).averageEnergy

/-- Raw mean mood of an hour bucket (source line 88). -/
def dailyRawMoodMean (entries : List MoodEnergyEntry) (hour : ℕ) : ℚ :=
  ((hourBucket entries hour).map (·.mood)).sum / ((hourBucket entries hour).length : ℚ)

/-- Raw mean energy of an hour bucket (source line 89). -/
def dailyRawEnergyMean (entries : List MoodEnergyEntry) (hour : ℕ) : ℚ :=
  ((hourBucket entries hour).map (·.energy)).sum / ((hourBucket entries hour).length : ℚ)

/-- Raw mean mood of a day bucket (source line 141). -/
def weeklyRawMoodMean (entries : List MoodEnergyEntry) (day : ℕ) : ℚ :=
  ((dayBucket entries day).map (·.mood)).sum / ((dayBucket entries day).length : ℚ)

/-- Raw mean energy of a day bucket (source line 142). -/
def weeklyRawEnergyMean (entries : List MoodEnergyEntry) (day : ℕ) : ℚ :=
  ((dayBucket entries day).map (·.energy)).sum / ((dayBucket entries day).length : ℚ)

/-- The hourly data-trust weight `min(n/10, 0.8)` (source line 92). -/
def dailyDataWeight (n : ℕ) : ℚ := min ((n : ℚ) / 10) (8/10)

/-- The weekly data-trust weight `min(n/15, 0.7)` (source line 145). -/
def weeklyDataWeight (n : ℕ) : ℚ := min ((n : ℚ) / 15) (7/10)

/-- Loop body of `analyzeDailyPatterns` for one hour (source lines 83–114):
bucket the entries whose timestamp falls in `hour`; with data, blend the raw
bucket mean with the baseline entry under `dataWeight = min(n/10, 0.8)`;
without data, return the baseline entry (a neutral `{50,50}` stub if even the
table missed the hour). -/
def dailyPatternForHour (entries : List MoodEnergyEntry) (hour : ℕ) : DailyPattern :=
  let bucket := hourBucket entries hour
  let defaultPattern := DEFAULT_DAILY_PATTERNS.find? fun p => p.hour == hour
  if 0 < bucket.length then
    let avgMood : ℚ := ((bucket.map (·.mood)).sum) / (bucket.length : ℚ)
    let avgEnergy : ℚ := ((bucket.map (·.energy)).sum) / (bucket.length : ℚ)
    let dataWeight : ℚ := min ((bucket.length : ℚ) / 10) (8/10)
    let defaultWeight : ℚ := 1 - dataWeight
    let blendedMood :=
      jsRound (avgMood * dataWeight
        + (jsOrI (defaultPattern.map (·.averageMood)) 50 : ℚ) * defaultWeight)
    let blendedEnergy :=
      jsRound (avgEnergy * dataWeight
        + (jsOrI (defaultPattern.map (·.averageEnergy)) 50 : ℚ) * defaultWeight)
    { hour := hour, averageMood := blendedMood, averageEnergy := blendedEnergy,
      entryCount := bucket.length }
  else
    defaultPattern.getD { hour := hour, averageMood := 50, averageEnergy := 50, entryCount := 0 }

/-- `PatternPredictor.analyzeDailyPatterns` (source lines 67–118), as the pure
computation over a snapshot of the stored entries: one pattern per hour
0..23, in order.  (The source additionally persists the result; see
`analyzeDailyPatternsS`.) -/
def analyzeDailyPatterns (entries : List MoodEnergyEntry) : List DailyPattern :=
  (List.range 24).map (dailyPatternForHour entries)

/-- Loop body of `analyzeWeeklyPatterns` for one day of the week (source
lines 136–167): like the daily case but with `dataWeight = min(n/15, 0.7)`
and a `{60,60}` neutral stub. -/
def weeklyPatternForDay (entries : List MoodEnergyEntry) (day : ℕ) : WeeklyPattern :=
  let bucket := dayBucket entries day
  let defaultPattern := DEFAULT_WEEKLY_PATTERNS.find? fun p => p.dayOfWeek == day
  if 0 < bucket.length then
    let avgMood : ℚ := ((bucket.map (·.mood)).sum) / (bucket.length : ℚ)
    let avgEnergy : ℚ := ((bucket.map (·.energy)).sum) / (bucket.length : ℚ)
    let dataWeight : ℚ := min ((bucket.length : ℚ) / 15) (7/10)
    let defaultWeight : ℚ := 1 - dataWeight
    let blendedMood :=
      jsRound (avgMood * dataWeight
        + (jsOrI (defaultPattern.map (·.averageMood)) 60 : ℚ) * defaultWeight)
    let blendedEnergy :=
      jsRound (avgEnergy * dataWeight
        + (jsOrI (defaultPattern.map (·.averageEnergy)) 60 : ℚ) * defaultWeight)
    { dayOfWeek := day, averageMood := blendedMood, averageEnergy := blendedEnergy,
      entryCount := bucket.length }
  else
    defaultPattern.getD { dayOfWeek := day, averageMood := 60, averageEnergy := 60, entryCount := 0 }

/-- `PatternPredictor.analyzeWeeklyPatterns` (source lines 120–171), pure
computation part: one pattern per day 0..6, in order. -/
def analyzeWeeklyPatterns (entries : List MoodEnergyEntry) : List WeeklyPattern :=
  (List.range 7).map (weeklyPatternForDay entries)

/-- The externally visible storage state touched by the predictor
(`LocalStateManager` keys `mood_energy_entries`, `daily_patterns`,
`weekly_patterns`). -/
structure Store where
  entries : List MoodEnergyEntry
  dailyPatterns : List DailyPattern
  weeklyPatterns : List WeeklyPattern
deriving DecidableEq, Repr

/-- `analyzeDailyPatterns` as the source actually runs it: read the stored
entries (line 68), compute, then persist the result with
`LocalStateManager.saveDailyPatterns` (line 116).  Returns the patterns and
the post-call storage state. -/
def analyzeDailyPatternsS (s : Store) : List DailyPattern × Store :=
  let ps := analyzeDailyPatterns s.entries
  (ps, { s with dailyPatterns := ps })

/-- `analyzeWeeklyPatterns` with its storage interaction (read line 121,
persist line 169). -/
def analyzeWeeklyPatternsS (s : Store) : List WeeklyPattern × Store :=
  let ps := analyzeWeeklyPatterns s.entries
  (ps, { s with weeklyPatterns := ps })

/-- `PatternPredictor.calculateTrend` (source lines 245–257): mean of the last
three values minus the mean of the three before them (`slice(-3)` versus
`slice(-6,-3)`), with zero fallbacks for short inputs. -/
def calculateTrend (values : List ℚ) : ℚ :=
  if values.length < 2 then 0
  else
    let recent := takeLast 3 values
    let older := (values.take (values.length - 3)).drop (values.length - 6)
    if older.length = 0 then 0
    else recent.sum / (recent.length : ℚ) - older.sum / (older.length : ℚ)

/-- `PatternPredictor.getTimeBasedVariation` (source lines 259–273),
parametrised by `sin2pi x = sin (2·π·x)` and the pair of `Math.random()`
draws `rnd` of this step: circadian sinusoid terms plus noise scaled by
`max(0.2, 1 - hoursAhead·0.05)`. -/
def getTimeBasedVariation (sin2pi : ℚ → ℚ) (rnd : ℚ × ℚ) (hour : ℕ)
    (hoursAhead : ℕ) : ℚ × ℚ :=
  let circadianMood := sin2pi (((hour : ℚ) - 6) / 24) * 3
  let circadianEnergy := sin2pi (((hour : ℚ) - 4) / 24) * 4
  let randomFactor := max (2/10) (1 - (hoursAhead : ℚ) * (5/100))
  let moodNoise := (rnd.1 - 1/2) * 4 * randomFactor
  let energyNoise := (rnd.2 - 1/2) * 5 * randomFactor
  (circadianMood + moodNoise, circadianEnergy + energyNoise)

/-- JavaScript `Math.max(10, Math.min(90, v))`, the bound clamp of source
lines 231–232. -/
def clamp1090 (v : ℚ) : ℚ := max 10 (min 90 v)

/-- Data-availability confidence (source lines 202–209): base 0.6, raised to
`max(0.6, (min(hourCount/10,1) + min(dayCount/15,1))/2)` when either pattern
has entries. -/
def patternConfidence (hourPattern : DailyPattern) (dayPattern : WeeklyPattern) : ℚ :=
  if 0 < hourPattern.entryCount ∨ 0 < dayPattern.entryCount then
    max (6/10) ((min ((hourPattern.entryCount : ℚ) / 10) 1
      + min ((dayPattern.entryCount : ℚ) / 15) 1) / 2)
  else 6/10

/-- Confidence bump applied together with the recent trend (source lines
212/222): `min(1, confidence + 0.1)` when at least 3 recent entries exist. -/
def bumpedConfidence (lastCount : ℕ) (confidence : ℚ) : ℚ :=
  if 3 ≤ lastCount then min 1 (confidence + 1/10) else confidence

/-- One iteration of the `generatePredictions` loop (source lines 182–239)
for step `i` (1-based): three-tier pattern lookup, baseline average,
data-availability confidence, recent-trend adjustment with decaying weight,
time-based variation, clamping and rounding. -/
def predictionPoint (dailyPatterns : List DailyPattern)
    (weeklyPatterns : List WeeklyPattern) (entries : List MoodEnergyEntry)
    (now : ℕ) (sin2pi : ℚ → ℚ) (noise : ℕ → ℚ × ℚ) (i : ℕ) : PredictionData :=
  let futureTime := now + i * 3600000
  let futureHour := getHours futureTime
  let futureDayOfWeek := getDay futureTime
  let hourPattern :=
    ((dailyPatterns.find? fun p => p.hour == futureHour).orElse fun _ =>
      DEFAULT_DAILY_PATTERNS.find? fun p => p.hour == futureHour).getD
      { hour := futureHour, averageMood := 50, averageEnergy := 50, entryCount := 0 }
  let dayPattern :=
    ((weeklyPatterns.find? fun p => p.dayOfWeek == futureDayOfWeek).orElse fun _ =>
      DEFAULT_WEEKLY_PATTERNS.find? fun p => p.dayOfWeek == futureDayOfWeek).getD
      { dayOfWeek := futureDayOfWeek, averageMood := 60, averageEnergy := 60, entryCount := 0 }
  let baseMood : ℚ := ((hourPattern.averageMood : ℚ) + (dayPattern.averageMood : ℚ)) / 2
  let baseEnergy : ℚ := ((hourPattern.averageEnergy : ℚ) + (dayPattern.averageEnergy : ℚ)) / 2
  let confidence1 : ℚ := patternConfidence hourPattern dayPattern
  let lastEntries := takeLast 10 entries
  let trendWeight : ℚ := max (1/10) (4/10 - (i : ℚ) * (3/100))
  let moodAfterTrend :=
    if 3 ≤ lastEntries.length then
      baseMood + calculateTrend (lastEntries.map (·.mood)) * trendWeight
    else baseMood
  let energyAfterTrend :=
    if 3 ≤ lastEntries.length then
      baseEnergy + calculateTrend (lastEntries.map (·.energy)) * trendWeight
    else baseEnergy
  let confidence2 := bumpedConfidence lastEntries.length confidence1
  let v := getTimeBasedVariation sin2pi (noise i) futureHour i
  { timestamp := futureTime,
    predictedMood := jsRound (clamp1090 (moodAfterTrend + v.1)),
    predictedEnergy := jsRound (clamp1090 (energyAfterTrend + v.2)),
    confidence := (jsRound (confidence2 * 100) : ℚ) / 100 }

/-- `PatternPredictor.generatePredictions` (source lines 173–243), as a pure
function of the stored daily/weekly patterns, the stored entries, the call
time `now`, the horizon `hoursAhead`, and the sine/noise parameters: one
point per loop step `i = 1 .. hoursAhead` (none when the horizon is
non-positive, since the loop body never runs). -/
def generatePredictions (dailyPatterns : List DailyPattern)
    (weeklyPatterns : List WeeklyPattern) (entries : List MoodEnergyEntry)
    (now : ℕ) (hoursAhead : ℤ) (sin2pi : ℚ → ℚ) (noise : ℕ → ℚ × ℚ) :
    List PredictionData :=
  (List.range hoursAhead.toNat).map fun j =>
    predictionPoint dailyPatterns weeklyPatterns entries now sin2pi noise (j + 1)

/-- The confidence-adjusted dip threshold of `findEnergyDips` (source
line 281): 30 when confidence exceeds 0.7, else 35. -/
def dipThreshold (confidence : ℚ) : ℤ := if 7/10 < confidence then 30 else 35

/-- The dip-selection filter of `PatternPredictor.findEnergyDips` (source
lines 279–283): keep the forecast points whose predicted energy is strictly
below their confidence-adjusted threshold.  (The source then formats each
kept point's timestamp as a locale time string, a presentation step not
modelled here.) -/
def findEnergyDips (predictions : List PredictionData) : List PredictionData :=
  predictions.filter fun p => decide (p.predictedEnergy < dipThreshold p.confidence)

/-- Twenty samples all at (UTC) hour 9 with mood 80 and energy 80: the
spec's blending scenario input. -/
def sampleEntries20 : List MoodEnergyEntry :=
  List.replicate 20 { id := "s9", timestamp := 32400000, mood := 80, energy := 80 }

/-- Ten samples at hour 9 whose mood/energy mean is 60.9 (nine 61s and one
60), against the hour-9 baseline of 60. -/
def skewedBucketEntries : List MoodEnergyEntry :=
  List.replicate 9 { id := "a", timestamp := 32400000, mood := 61, energy := 61 }
    ++ [{ id := "b", timestamp := 32400000, mood := 60, energy := 60 }]

/-- A single sample at hour 9 (day-of-week 4). -/
def singleEntryList : List MoodEnergyEntry :=
  [{ id := "w", timestamp := 32400000, mood := 70, energy := 40 }]

/-- Ten samples with distinct moods/energies, used as a shared recent-history
suffix. -/
def baseTenEntries : List MoodEnergyEntry :=
  [{ id := "e1", timestamp := 3600000, mood := 40, energy := 45 },
   { id := "e2", timestamp := 7200000, mood := 42, energy := 47 },
   { id := "e3", timestamp := 10800000, mood := 44, energy := 49 },
   { id := "e4", timestamp := 14400000, mood := 46, energy := 51 },
   { id := "e5", timestamp := 18000000, mood := 48, energy := 53 },
   { id := "e6", timestamp := 21600000, mood := 50, energy := 55 },
   { id := "e7", timestamp := 25200000, mood := 52, energy := 57 },
   { id := "e8", timestamp := 28800000, mood := 54, energy := 59 },
   { id := "e9", timestamp := 32400000, mood := 56, energy := 61 },
   { id := "e10", timestamp := 36000000, mood := 58, energy := 63 }]

/-- Eleven samples sharing their final ten elements with `baseTenEntries` but
with one extra, very different, older sample in front. -/
def elevenEntries : List MoodEnergyEntry :=
  { id := "e0", timestamp := 0, mood := 95, energy := 5 } :: baseTenEntries

section Theorems

/- The Batteries rational-number operations are `@[irreducible]`, which stops
`decide` from evaluating closed facts about the embedded functions; the
kernel itself unfolds them fine.  Restore the default reducibility locally so
concrete runs of the embedding can be settled by `decide`. -/
attribute [local semireducible] Rat.add Rat.mul Rat.sub Rat.inv

lemma jsRound_mono {x y : ℚ} (h : x ≤ y) : jsRound x ≤ jsRound y :=
  Int.floor_le_floor (by linarith)

lemma jsRound_clamp1090_lb (x : ℚ) : 10 ≤ jsRound (clamp1090 x) :=
  calc (10 : ℤ) = jsRound (10 : ℚ) := by decide
    _ ≤ jsRound (clamp1090 x) := jsRound_mono (le_max_left _ _)

lemma jsRound_clamp1090_ub (x : ℚ) : jsRound (clamp1090 x) ≤ 90 :=
  calc jsRound (clamp1090 x)
      ≤ jsRound (90 : ℚ) := jsRound_mono (max_le (by norm_num) (min_le_left _ _))
    _ = 90 := by decide

lemma patternConfidence_bounds (hp : DailyPattern) (dp : WeeklyPattern) :
    6/10 ≤ patternConfidence hp dp ∧ patternConfidence hp dp ≤ 1 := by
  unfold patternConfidence
  split
  · refine ⟨le_max_left _ _, max_le (by norm_num) ?_⟩
    have h1 : min ((hp.entryCount : ℚ) / 10) 1 ≤ 1 := min_le_right _ _
    have h2 : min ((dp.entryCount : ℚ) / 15) 1 ≤ 1 := min_le_right _ _
    linarith
  · norm_num

lemma bumpedConfidence_bounds (n : ℕ) {c : ℚ} (h1 : 6/10 ≤ c) (h2 : c ≤ 1) :
    6/10 ≤ bumpedConfidence n c ∧ bumpedConfidence n c ≤ 1 := by
  unfold bumpedConfidence
  split
  · exact ⟨le_min (by norm_num) (by linarith), min_le_left _ _⟩
  · exact ⟨h1, h2⟩

lemma roundedConfidence_bounds {c : ℚ} (h1 : 6/10 ≤ c) (h2 : c ≤ 1) :
    6/10 ≤ (jsRound (c * 100) : ℚ) / 100 ∧ (jsRound (c * 100) : ℚ) / 100 ≤ 1 := by
  have l1 : (60 : ℤ) ≤ jsRound (c * 100) :=
    calc (60 : ℤ) = jsRound (60 : ℚ) := by decide
      _ ≤ jsRound (c * 100) := jsRound_mono (by linarith)
  have l2 : jsRound (c * 100) ≤ 100 :=
    calc jsRound (c * 100) ≤ jsRound (100 : ℚ) := jsRound_mono (by linarith)
      _ = 100 := by decide
  have l1q : (60 : ℚ) ≤ (jsRound (c * 100) : ℚ) := by exact_mod_cast l1
  have l2q : (jsRound (c * 100) : ℚ) ≤ 100 := by exact_mod_cast l2
  constructor <;> linarith

lemma dailyPatternForHour_hour (entries : List MoodEnergyEntry) (hour : ℕ) :
    (dailyPatternForHour entries hour).hour = hour := by
  simp only [dailyPatternForHour]
  split
  · rfl
  · cases hfind : DEFAULT_DAILY_PATTERNS.find? fun p => p.hour == hour with
    | none => rfl
    | some q =>
        simpa using List.find?_some hfind

lemma weeklyPatternForDay_day (entries : List MoodEnergyEntry) (day : ℕ) :
    (weeklyPatternForDay entries day).dayOfWeek = day := by
  simp only [weeklyPatternForDay]
  split
  · rfl
  · cases hfind : DEFAULT_WEEKLY_PATTERNS.find? fun p => p.dayOfWeek == day with
    | none => rfl
    | some q =>
        simpa using List.find?_some hfind

/-- C1: for every sample list, `analyzeDailyPatterns` returns exactly 24
entries whose hour fields are `0..23` in ascending order with no repeats, and
`analyzeWeeklyPatterns` returns exactly 7 entries whose dayOfWeek fields are
`0..6` likewise. -/
theorem analyzePatterns_complete (entries : List MoodEnergyEntry) :
    (analyzeDailyPatterns entries).map (fun p => p.hour) = List.range 24 ∧
    (analyzeWeeklyPatterns entries).map (fun p => p.dayOfWeek) = List.range 7 := by
  constructor
  · unfold analyzeDailyPatterns
    rw [List.map_map]
    calc (List.range 24).map ((fun p => p.hour) ∘ dailyPatternForHour entries)
        = (List.range 24).map id :=
          List.map_congr_left fun h _ => dailyPatternForHour_hour entries h
      _ = List.range 24 := List.map_id _
  · unfold analyzeWeeklyPatterns
    rw [List.map_map]
    calc (List.range 7).map ((fun p => p.dayOfWeek) ∘ weeklyPatternForDay entries)
        = (List.range 7).map id :=
          List.map_congr_left fun d _ => weeklyPatternForDay_day entries d
      _ = List.range 7 := List.map_id _

lemma jsOrI_daily_mood (hour : ℕ) :
    jsOrI ((DEFAULT_DAILY_PATTERNS.find? fun p => p.hour == hour).map fun p => p.averageMood) 50
      = baselineDailyMood hour := by
  have hnz : ∀ q ∈ DEFAULT_DAILY_PATTERNS, q.averageMood ≠ 0 := by decide
  unfold baselineDailyMood
  cases hfind : DEFAULT_DAILY_PATTERNS.find? fun p => p.hour == hour with
  | none => rfl
  | some q => simp [jsOrI, hnz q (List.mem_of_find?_eq_some hfind)]

lemma jsOrI_daily_energy (hour : ℕ) :
    jsOrI ((DEFAULT_DAILY_PATTERNS.find? fun p => p.hour == hour).map fun p => p.averageEnergy) 50
      = baselineDailyEnergy hour := by
  have hnz : ∀ q ∈ DEFAULT_DAILY_PATTERNS, q.averageEnergy ≠ 0 := by decide
  unfold baselineDailyEnergy
  cases hfind : DEFAULT_DAILY_PATTERNS.find? fun p => p.hour == hour with
  | none => rfl
  | some q => simp [jsOrI, hnz q (List.mem_of_find?_eq_some hfind)]

lemma jsOrI_weekly_mood (day : ℕ) :
    jsOrI ((DEFAULT_WEEKLY_PATTERNS.find? fun p => p.dayOfWeek == day).map fun p => p.averageMood) 60
      = baselineWeeklyMood day := by
  have hnz : ∀ q ∈ DEFAULT_WEEKLY_PATTERNS, q.averageMood ≠ 0 := by decide
  unfold baselineWeeklyMood
  cases hfind : DEFAULT_WEEKLY_PATTERNS.find? fun p => p.dayOfWeek == day with
  | none => rfl
  | some q => simp [jsOrI, hnz q (List.mem_of_find?_eq_some hfind)]

lemma jsOrI_weekly_energy (day : ℕ) :
    jsOrI ((DEFAULT_WEEKLY_PATTERNS.find? fun p => p.dayOfWeek == day).map fun p => p.averageEnergy) 60
      = baselineWeeklyEnergy day := by
  have hnz : ∀ q ∈ DEFAULT_WEEKLY_PATTERNS, q.averageEnergy ≠ 0 := by decide
  unfold baselineWeeklyEnergy
  cases hfind : DEFAULT_WEEKLY_PATTERNS.find? fun p => p.dayOfWeek == day with
  | none => rfl
  | some q => simp [jsOrI, hnz q (List.mem_of_find?_eq_some hfind)]

lemma dailyPatternForHour_pos (entries : List MoodEnergyEntry) (hour : ℕ)
    (hn : 0 < (hourBucket entries hour).length) :
    dailyPatternForHour entries hour =
      { hour := hour,
        averageMood := jsRound (dailyRawMoodMean entries hour
            * dailyDataWeight (hourBucket entries hour).length
          + (baselineDailyMood hour : ℚ)
            * (1 - dailyDataWeight (hourBucket entries hour).length)),
        averageEnergy := jsRound (dailyRawEnergyMean entries hour
            * dailyDataWeight (hourBucket entries hour).length
          + (baselineDailyEnergy hour : ℚ)
            * (1 - dailyDataWeight (hourBucket entries hour).length)),
        entryCount := (hourBucket entries hour).length } := by
  simp only [dailyPatternForHour]
  rw [if_pos hn, jsOrI_daily_mood, jsOrI_daily_energy]
  rfl

lemma weeklyPatternForDay_pos (entries : List MoodEnergyEntry) (day : ℕ)
    (hn : 0 < (dayBucket entries day).length) :
    weeklyPatternForDay entries day =
      { dayOfWeek := day,
        averageMood := jsRound (weeklyRawMoodMean entries day
            * weeklyDataWeight (dayBucket entries day).length
          + (baselineWeeklyMood day : ℚ)
            * (1 - weeklyDataWeight (dayBucket entries day).length)),
        averageEnergy := jsRound (weeklyRawEnergyMean entries day
            * weeklyDataWeight (dayBucket entries day).length
          + (baselineWeeklyEnergy day : ℚ)
            * (1 - weeklyDataWeight (dayBucket entries day).length)),
        entryCount := (dayBucket entries day).length } := by
  simp only [weeklyPatternForDay]
  rw [if_pos hn, jsOrI_weekly_mood, jsOrI_weekly_energy]
  rfl

lemma analyzeDailyPatterns_getElem (entries : List MoodEnergyEntry) {hour : ℕ}
    (hh : hour < 24) :
    (analyzeDailyPatterns entries)[hour]? = some (dailyPatternForHour entries hour) := by
  unfold analyzeDailyPatterns
  rw [List.getElem?_map, List.getElem?_range hh]
  rfl

lemma analyzeWeeklyPatterns_getElem (entries : List MoodEnergyEntry) {day : ℕ}
    (hd : day < 7) :
    (analyzeWeeklyPatterns entries)[day]? = some (weeklyPatternForDay entries day) := by
  unfold analyzeWeeklyPatterns
  rw [List.getElem?_map, List.getElem?_range hd]
  rfl

/-- C3: for every hour bucket with at least one sample, the entry returned by
`analyzeDailyPatterns` at that hour blends the raw bucket mean with the
baseline value as `round(raw * dataWeight + baseline * (1 - dataWeight))`
with `dataWeight = min(n/10, 0.8)`, and carries the bucket size as
`entryCount`. -/
theorem analyzeDaily_blend (entries : List MoodEnergyEntry) (hour : ℕ)
    (hh : hour < 24) (hn : 0 < (hourBucket entries hour).length) :
    (analyzeDailyPatterns entries)[hour]? = some
      { hour := hour,
        averageMood := jsRound (dailyRawMoodMean entries hour
            * dailyDataWeight (hourBucket entries hour).length
          + (baselineDailyMood hour : ℚ)
            * (1 - dailyDataWeight (hourBucket entries hour).length)),
        averageEnergy := jsRound (dailyRawEnergyMean entries hour
            * dailyDataWeight (hourBucket entries hour).length
          + (baselineDailyEnergy hour : ℚ)
            * (1 - dailyDataWeight (hourBucket entries hour).length)),
        entryCount := (hourBucket entries hour).length } := by
  rw [analyzeDailyPatterns_getElem entries hh, dailyPatternForHour_pos entries hour hn]

/-- C3 witness: 20 samples all at hour 9 with mood 80 and energy 80, against
the hour-9 baseline `{mood 60, energy 60}`, blend to mood 76 and energy 76. -/
theorem analyzeDaily_blend_witness :
    (9 < 24 ∧ 0 < (hourBucket sampleEntries20 9).length) ∧
    (analyzeDailyPatterns sampleEntries20)[9]? =
      some { hour := 9, averageMood := 76, averageEnergy := 76, entryCount := 20 } :=
  ⟨⟨by decide, by decide⟩,
   (analyzeDaily_blend sampleEntries20 9 (by decide) (by decide)).trans (by decide)⟩

lemma convex_blend_le_max (r b w : ℚ) (h0 : 0 ≤ w) (h1 : w ≤ 1) :
    r * w + b * (1 - w) ≤ max r b := by
  rcases le_total r b with h | h
  · rw [max_eq_right h]; nlinarith
  · rw [max_eq_left h]; nlinarith

lemma min_le_convex_blend (r b w : ℚ) (h0 : 0 ≤ w) (h1 : w ≤ 1) :
    min r b ≤ r * w + b * (1 - w) := by
  rcases le_total r b with h | h
  · rw [min_eq_left h]; nlinarith
  · rw [min_eq_right h]; nlinarith

lemma dailyDataWeight_nonneg (n : ℕ) : 0 ≤ dailyDataWeight n :=
  le_min (by positivity) (by norm_num)

lemma dailyDataWeight_le_one (n : ℕ) : dailyDataWeight n ≤ 1 :=
  (min_le_right _ _).trans (by norm_num)

lemma weeklyDataWeight_nonneg (n : ℕ) : 0 ≤ weeklyDataWeight n :=
  le_min (by positivity) (by norm_num)

lemma weeklyDataWeight_le_one (n : ℕ) : weeklyDataWeight n ≤ 1 :=
  (min_le_right _ _).trans (by norm_num)

/-- C5 counterexample: ten hour-9 samples with raw mood mean 60.9 against the
hour-9 baseline mood 60 blend (with dataWeight 0.8) to the pre-rounding value
60.72, which rounds to 61 — strictly above `max(raw, baseline) = 60.9`, so the
inclusive `[min(raw, baseline), max(raw, baseline)]` bound fails. -/
theorem blend_bound_counterexample :
    dailyRawMoodMean skewedBucketEntries 9 = 609/10 ∧
    (baselineDailyMood 9 : ℚ) = 60 ∧
    ((dailyPatternForHour skewedBucketEntries 9).averageMood : ℚ) = 61 ∧
    ¬ ((dailyPatternForHour skewedBucketEntries 9).averageMood : ℚ)
        ≤ max (dailyRawMoodMean skewedBucketEntries 9) ((baselineDailyMood 9 : ℤ) : ℚ) := by
  refine ⟨by decide, by decide, by decide, ?_⟩
  intro h
  revert h
  decide

/-- C5 amended: for every bucket with at least one sample, the blended
mood/energy value lies between `round(min(raw, baseline))` and
`round(max(raw, baseline))` inclusive (the pre-rounding blend is a convex
combination lying in `[min, max]`; the final `Math.round` can step at most to
the rounding of those endpoints). -/
theorem blend_round_bound (entries : List MoodEnergyEntry) (hour day : ℕ)
    (hd : 0 < (hourBucket entries hour).length)
    (hw : 0 < (dayBucket entries day).length) :
    (jsRound (min (dailyRawMoodMean entries hour) ((baselineDailyMood hour : ℤ) : ℚ))
        ≤ (dailyPatternForHour entries hour).averageMood ∧
      (dailyPatternForHour entries hour).averageMood
        ≤ jsRound (max (dailyRawMoodMean entries hour) ((baselineDailyMood hour : ℤ) : ℚ))) ∧
    (jsRound (min (dailyRawEnergyMean entries hour) ((baselineDailyEnergy hour : ℤ) : ℚ))
        ≤ (dailyPatternForHour entries hour).averageEnergy ∧
      (dailyPatternForHour entries hour).averageEnergy
        ≤ jsRound (max (dailyRawEnergyMean entries hour) ((baselineDailyEnergy hour : ℤ) : ℚ))) ∧
    (jsRound (min (weeklyRawMoodMean entries day) ((baselineWeeklyMood day : ℤ) : ℚ))
        ≤ (weeklyPatternForDay entries day).averageMood ∧
      (weeklyPatternForDay entries day).averageMood
        ≤ jsRound (max (weeklyRawMoodMean entries day) ((baselineWeeklyMood day : ℤ) : ℚ))) ∧
    (jsRound (min (weeklyRawEnergyMean entries day) ((baselineWeeklyEnergy day : ℤ) : ℚ))
        ≤ (weeklyPatternForDay entries day).averageEnergy ∧
      (weeklyPatternForDay entries day).averageEnergy
        ≤ jsRound (max (weeklyRawEnergyMean entries day) ((baselineWeeklyEnergy day : ℤ) : ℚ))) := by
  rw [dailyPatternForHour_pos entries hour hd, weeklyPatternForDay_pos entries day hw]
  dsimp only
  exact
    ⟨⟨jsRound_mono (min_le_convex_blend _ _ _
          (dailyDataWeight_nonneg _) (dailyDataWeight_le_one _)),
      jsRound_mono (convex_blend_le_max _ _ _
          (dailyDataWeight_nonneg _) (dailyDataWeight_le_one _))⟩,
     ⟨jsRound_mono (min_le_convex_blend _ _ _
          (dailyDataWeight_nonneg _) (dailyDataWeight_le_one _)),
      jsRound_mono (convex_blend_le_max _ _ _
          (dailyDataWeight_nonneg _) (dailyDataWeight_le_one _))⟩,
     ⟨jsRound_mono (min_le_convex_blend _ _ _
          (weeklyDataWeight_nonneg _) (weeklyDataWeight_le_one _)),
      jsRound_mono (convex_blend_le_max _ _ _
          (weeklyDataWeight_nonneg _) (weeklyDataWeight_le_one _))⟩,
     ⟨jsRound_mono (min_le_convex_blend _ _ _
          (weeklyDataWeight_nonneg _) (weeklyDataWeight_le_one _)),
      jsRound_mono (convex_blend_le_max _ _ _
          (weeklyDataWeight_nonneg _) (weeklyDataWeight_le_one _))⟩⟩

/-- C5 amended witness: the single hour-9 sample `{mood 70, energy 40}` gives
a nonempty hour-9 bucket and a nonempty day-4 bucket, and the rounded-blend
bounds hold there. -/
theorem blend_round_bound_witness :
    (0 < (hourBucket singleEntryList 9).length ∧ 0 < (dayBucket singleEntryList 4).length) ∧
    ((jsRound (min (dailyRawMoodMean singleEntryList 9) ((baselineDailyMood 9 : ℤ) : ℚ))
        ≤ (dailyPatternForHour singleEntryList 9).averageMood ∧
      (dailyPatternForHour singleEntryList 9).averageMood
        ≤ jsRound (max (dailyRawMoodMean singleEntryList 9) ((baselineDailyMood 9 : ℤ) : ℚ))) ∧
    (jsRound (min (dailyRawEnergyMean singleEntryList 9) ((baselineDailyEnergy 9 : ℤ) : ℚ))
        ≤ (dailyPatternForHour singleEntryList 9).averageEnergy ∧
      (dailyPatternForHour singleEntryList 9).averageEnergy
        ≤ jsRound (max (dailyRawEnergyMean singleEntryList 9) ((baselineDailyEnergy 9 : ℤ) : ℚ))) ∧
    (jsRound (min (weeklyRawMoodMean singleEntryList 4) ((baselineWeeklyMood 4 : ℤ) : ℚ))
        ≤ (weeklyPatternForDay singleEntryList 4).averageMood ∧
      (weeklyPatternForDay singleEntryList 4).averageMood
        ≤ jsRound (max (weeklyRawMoodMean singleEntryList 4) ((baselineWeeklyMood 4 : ℤ) : ℚ))) ∧
    (jsRound (min (weeklyRawEnergyMean singleEntryList 4) ((baselineWeeklyEnergy 4 : ℤ) : ℚ))
        ≤ (weeklyPatternForDay singleEntryList 4).averageEnergy ∧
      (weeklyPatternForDay singleEntryList 4).averageEnergy
        ≤ jsRound (max (weeklyRawEnergyMean singleEntryList 4) ((baselineWeeklyEnergy 4 : ℤ) : ℚ)))) :=
  ⟨⟨by decide, by decide⟩, blend_round_bound singleEntryList 9 4 (by decide) (by decide)⟩

/-- C8: for the empty sample list, the pattern at every hour 0..23 (resp.
every day 0..6) is exactly the corresponding baseline-table entry, and every
returned entry has `entryCount = 0`. -/
theorem analyze_empty_baseline :
    ((List.range 24).all fun h =>
        (analyzeDailyPatterns [])[h]? == DEFAULT_DAILY_PATTERNS.find? fun p => p.hour == h) = true ∧
    ((List.range 7).all fun d =>
        (analyzeWeeklyPatterns [])[d]? == DEFAULT_WEEKLY_PATTERNS.find? fun p => p.dayOfWeek == d) = true ∧
    ((analyzeDailyPatterns []).all fun p => p.entryCount == 0) = true ∧
    ((analyzeWeeklyPatterns []).all fun p => p.entryCount == 0) = true := by
  refine ⟨by decide, by decide, by decide, by decide⟩

/-- C6 counterexample: running `analyzeDailyPatterns` on an empty storage
state changes the stored daily patterns (it persists its freshly computed
24-entry result via `saveDailyPatterns`); the storage state is not left
unchanged. -/
theorem analyze_writes_counterexample :
    (analyzeDailyPatternsS { entries := [], dailyPatterns := [], weeklyPatterns := [] }).2
      ≠ { entries := [], dailyPatterns := [], weeklyPatterns := [] } := by
  decide

/-- C6 amended: `analyzeDailyPatterns` and `analyzeWeeklyPatterns` leave the
stored entries (and the other pattern table) unchanged, but each one performs
exactly one write: it overwrites its own stored pattern list with the result
it returns. -/
theorem analyze_frame (s : Store) :
    ((analyzeDailyPatternsS s).2.entries = s.entries ∧
     (analyzeDailyPatternsS s).2.weeklyPatterns = s.weeklyPatterns ∧
     (analyzeDailyPatternsS s).2.dailyPatterns = (analyzeDailyPatternsS s).1) ∧
    ((analyzeWeeklyPatternsS s).2.entries = s.entries ∧
     (analyzeWeeklyPatternsS s).2.dailyPatterns = s.dailyPatterns ∧
     (analyzeWeeklyPatternsS s).2.weeklyPatterns = (analyzeWeeklyPatternsS s).1) :=
  ⟨⟨rfl, rfl, rfl⟩, ⟨rfl, rfl, rfl⟩⟩

/-- C2 counterexample: called with horizon 0 (a non-positive horizon),
`generatePredictions` does not fail — its loop body never runs and it returns
the empty prediction list as an ordinary result. -/
theorem nonpositive_horizon_counterexample :
    generatePredictions [] [] [] 0 0 (fun _ => 0) (fun _ => (0, 0)) = [] := rfl

/-- C2 amended: for every non-positive horizon, `generatePredictions` returns
the empty prediction list; the code has no `InvalidRange` (or any other)
error path. -/
theorem generatePredictions_nonpositive_horizon (dailyPatterns : List DailyPattern)
    (weeklyPatterns : List WeeklyPattern) (entries : List MoodEnergyEntry)
    (now : ℕ) (hoursAhead : ℤ) (sin2pi : ℚ → ℚ) (noise : ℕ → ℚ × ℚ)
    (h : hoursAhead ≤ 0) :
    generatePredictions dailyPatterns weeklyPatterns entries now hoursAhead sin2pi noise = [] := by
  unfold generatePredictions
  rw [Int.toNat_of_nonpos h]
  rfl

/-- C2 amended witness: horizon −3 is non-positive and yields the empty
prediction list. -/
theorem generatePredictions_nonpositive_horizon_witness :
    (-3 : ℤ) ≤ 0 ∧
    generatePredictions [] [] [] 0 (-3) (fun _ => 0) (fun _ => (0, 0)) = [] :=
  ⟨by decide,
   generatePredictions_nonpositive_horizon [] [] [] 0 (-3) (fun _ => 0) (fun _ => (0, 0))
     (by decide)⟩

/-- C4 counterexample: a forecast point with energy 30 and confidence 0.9 is
at its confidence-adjusted threshold (30), so the claim counts it as a dip,
but the code's strict `<` comparison excludes it: `findEnergyDips` returns
the empty list on it. -/
theorem dip_at_threshold_counterexample :
    dipThreshold (9/10) = 30 ∧
    (30 : ℤ) ≤ dipThreshold (9/10) ∧
    findEnergyDips [(⟨0, 50, 30, 9/10⟩ : PredictionData)] = [] := by
  refine ⟨by decide, by decide, by decide⟩

/-- C4 amended: `findEnergyDips` returns exactly those points whose predicted
energy is strictly under their confidence-adjusted threshold (30 when
confidence exceeds 0.7, else 35), in input order; in particular energy 25
with confidence 0.9 and energy 32 with confidence 0.5 are dips, while energy
40 with confidence 0.9 is not. -/
theorem findEnergyDips_characterization :
    (∀ predictions : List PredictionData,
      (findEnergyDips predictions).Sublist predictions ∧
      ∀ p : PredictionData, p ∈ findEnergyDips predictions ↔
        p ∈ predictions ∧ p.predictedEnergy < dipThreshold p.confidence) ∧
    findEnergyDips [(⟨0, 50, 25, 9/10⟩ : PredictionData)] = [⟨0, 50, 25, 9/10⟩] ∧
    findEnergyDips [(⟨0, 50, 32, 5/10⟩ : PredictionData)] = [⟨0, 50, 32, 5/10⟩] ∧
    findEnergyDips [(⟨0, 50, 40, 9/10⟩ : PredictionData)] = [] := by
  refine ⟨fun predictions => ⟨List.filter_sublist _, fun p => ?_⟩, by decide, by decide, by decide⟩
  simp [findEnergyDips, List.mem_filter]

lemma predictionPoint_mood_shape (dailyPatterns : List DailyPattern)
    (weeklyPatterns : List WeeklyPattern) (entries : List MoodEnergyEntry)
    (now : ℕ) (sin2pi : ℚ → ℚ) (noise : ℕ → ℚ × ℚ) (i : ℕ) :
    ∃ m : ℚ, (predictionPoint dailyPatterns weeklyPatterns entries now sin2pi noise i).predictedMood
      = jsRound (clamp1090 m) :=
  ⟨_, rfl⟩

lemma predictionPoint_energy_shape (dailyPatterns : List DailyPattern)
    (weeklyPatterns : List WeeklyPattern) (entries : List MoodEnergyEntry)
    (now : ℕ) (sin2pi : ℚ → ℚ) (noise : ℕ → ℚ × ℚ) (i : ℕ) :
    ∃ e : ℚ, (predictionPoint dailyPatterns weeklyPatterns entries now sin2pi noise i).predictedEnergy
      = jsRound (clamp1090 e) :=
  ⟨_, rfl⟩

lemma predictionPoint_conf_shape (dailyPatterns : List DailyPattern)
    (weeklyPatterns : List WeeklyPattern) (entries : List MoodEnergyEntry)
    (now : ℕ) (sin2pi : ℚ → ℚ) (noise : ℕ → ℚ × ℚ) (i : ℕ) :
    ∃ (hpat : DailyPattern) (dpat : WeeklyPattern),
      (predictionPoint dailyPatterns weeklyPatterns entries now sin2pi noise i).confidence
        = (jsRound (bumpedConfidence (takeLast 10 entries).length
            (patternConfidence hpat dpat) * 100) : ℚ) / 100 :=
  ⟨_, _, rfl⟩

/-- C7: every point produced by `generatePredictions` — for any patterns,
samples, horizon, and sine/noise values — has predictedMood and
predictedEnergy in `[10, 90]` and a confidence in `[0, 1]` that is an exact
multiple of `1/100` (two decimals). -/
theorem generatePredictions_bounds (dailyPatterns : List DailyPattern)
    (weeklyPatterns : List WeeklyPattern) (entries : List MoodEnergyEntry)
    (now : ℕ) (hoursAhead : ℤ) (sin2pi : ℚ → ℚ) (noise : ℕ → ℚ × ℚ)
    (p : PredictionData)
    (hp : p ∈ generatePredictions dailyPatterns weeklyPatterns entries now hoursAhead sin2pi noise) :
    (10 ≤ p.predictedMood ∧ p.predictedMood ≤ 90) ∧
    (10 ≤ p.predictedEnergy ∧ p.predictedEnergy ≤ 90) ∧
    (0 ≤ p.confidence ∧ p.confidence ≤ 1) ∧
    (∃ k : ℤ, p.confidence = (k : ℚ) / 100) := by
  rw [generatePredictions] at hp
  obtain ⟨j, -, rfl⟩ := List.mem_map.mp hp
  obtain ⟨m, hm⟩ :=
    predictionPoint_mood_shape dailyPatterns weeklyPatterns entries now sin2pi noise (j + 1)
  obtain ⟨e, he⟩ :=
    predictionPoint_energy_shape dailyPatterns weeklyPatterns entries now sin2pi noise (j + 1)
  obtain ⟨hpat, dpat, hc⟩ :=
    predictionPoint_conf_shape dailyPatterns weeklyPatterns entries now sin2pi noise (j + 1)
  obtain ⟨b1, b2⟩ := patternConfidence_bounds hpat dpat
  obtain ⟨c1, c2⟩ := bumpedConfidence_bounds (takeLast 10 entries).length b1 b2
  obtain ⟨d1, d2⟩ := roundedConfidence_bounds c1 c2
  rw [hm, he, hc]
  exact ⟨⟨jsRound_clamp1090_lb m, jsRound_clamp1090_ub m⟩,
    ⟨jsRound_clamp1090_lb e, jsRound_clamp1090_ub e⟩,
    ⟨by linarith, d2⟩, ⟨_, rfl⟩⟩

/-- C7 witness: with empty patterns and samples, horizon 1, zero sine and
zero noise draws, the single forecast point is
`{timestamp 3600000, mood 51, energy 43, confidence 0.6}`, and the bounds
hold on it. -/
theorem generatePredictions_bounds_witness :
    ((⟨3600000, 51, 43, 3/5⟩ : PredictionData) ∈
        generatePredictions [] [] [] 0 1 (fun _ => 0) (fun _ => (0, 0))) ∧
    ((10 ≤ (51 : ℤ) ∧ (51 : ℤ) ≤ 90) ∧ (10 ≤ (43 : ℤ) ∧ (43 : ℤ) ≤ 90) ∧
     (0 ≤ (3/5 : ℚ) ∧ (3/5 : ℚ) ≤ 1) ∧ (∃ k : ℤ, (3/5 : ℚ) = (k : ℚ) / 100)) :=
  have hm : (⟨3600000, 51, 43, 3/5⟩ : PredictionData) ∈
      generatePredictions [] [] [] 0 1 (fun _ => 0) (fun _ => (0, 0)) := by decide
  ⟨hm, generatePredictions_bounds [] [] [] 0 1 (fun _ => 0) (fun _ => (0, 0)) _ hm⟩

/-- C9: the reported confidence of every forecast point lies in `[0.6, 1]`:
the base confidence 0.6 is a floor (every confidence computation takes a max
with 0.6, the bump is capped at 1), and rounding to two decimals stays in the
interval. -/
theorem generatePredictions_confidence_range (dailyPatterns : List DailyPattern)
    (weeklyPatterns : List WeeklyPattern) (entries : List MoodEnergyEntry)
    (now : ℕ) (hoursAhead : ℤ) (sin2pi : ℚ → ℚ) (noise : ℕ → ℚ × ℚ)
    (p : PredictionData)
    (hp : p ∈ generatePredictions dailyPatterns weeklyPatterns entries now hoursAhead sin2pi noise) :
    6/10 ≤ p.confidence ∧ p.confidence ≤ 1 := by
  rw [generatePredictions] at hp
  obtain ⟨j, -, rfl⟩ := List.mem_map.mp hp
  obtain ⟨hpat, dpat, hc⟩ :=
    predictionPoint_conf_shape dailyPatterns weeklyPatterns entries now sin2pi noise (j + 1)
  obtain ⟨b1, b2⟩ := patternConfidence_bounds hpat dpat
  obtain ⟨c1, c2⟩ := bumpedConfidence_bounds (takeLast 10 entries).length b1 b2
  rw [hc]
  exact roundedConfidence_bounds c1 c2

/-- C9 witness: the forecast point of the C7 scenario reports confidence 0.6,
which lies in `[0.6, 1]`. -/
theorem generatePredictions_confidence_range_witness :
    ((⟨3600000, 51, 43, 3/5⟩ : PredictionData) ∈
        generatePredictions [] [] [] 0 1 (fun _ => 0) (fun _ => (0, 0))) ∧
    (6/10 ≤ (3/5 : ℚ) ∧ (3/5 : ℚ) ≤ 1) :=
  have hm : (⟨3600000, 51, 43, 3/5⟩ : PredictionData) ∈
      generatePredictions [] [] [] 0 1 (fun _ => 0) (fun _ => (0, 0)) := by decide
  ⟨hm, generatePredictions_confidence_range [] [] [] 0 1 (fun _ => 0) (fun _ => (0, 0)) _ hm⟩

/-- C10: `generatePredictions` depends on the sample history only through its
last 10 elements — two histories with the same final 10 elements (same
patterns, call time, horizon, sine and noise) produce identical forecasts. -/
theorem generatePredictions_last10 (dailyPatterns : List DailyPattern)
    (weeklyPatterns : List WeeklyPattern) (entries1 entries2 : List MoodEnergyEntry)
    (now : ℕ) (hoursAhead : ℤ) (sin2pi : ℚ → ℚ) (noise : ℕ → ℚ × ℚ)
    (h : takeLast 10 entries1 = takeLast 10 entries2) :
    generatePredictions dailyPatterns weeklyPatterns entries1 now hoursAhead sin2pi noise =
      generatePredictions dailyPatterns weeklyPatterns entries2 now hoursAhead sin2pi noise := by
  unfold generatePredictions
  refine List.map_congr_left fun j _ => ?_
  unfold predictionPoint
  rw [h]

/-- C10 witness: an 11-sample history and the 10-sample history formed by its
last ten elements (dropping a very different oldest sample) yield identical
two-hour forecasts. -/
theorem generatePredictions_last10_witness :
    takeLast 10 elevenEntries = takeLast 10 baseTenEntries ∧
    generatePredictions [] [] elevenEntries 0 2 (fun _ => 0) (fun _ => (0, 0)) =
      generatePredictions [] [] baseTenEntries 0 2 (fun _ => 0) (fun _ => (0, 0)) :=
  ⟨by decide,
   generatePredictions_last10 [] [] elevenEntries baseTenEntries 0 2
     (fun _ => 0) (fun _ => (0, 0)) (by decide)⟩

end Theorems
